import Mathlib

/-!
Verification development for the price-axis label rendering core
(`canvas-helpers.ts` and `PriceAxisViewRenderer`).

Numbers are modelled as rationals (the code performs exact arithmetic on
JS numbers in the ranges of interest); `Math.round`, `Math.floor` and
`Math.ceil` are modelled exactly.  The 2D drawing surface is modelled as a
trace of operations (`CanvasOp`); each drawing routine of the source is
embedded as a function returning the list of operations it issues, in
order.  The mutable style state of the surface is a separate interpreter
(`runCanvas`) over such traces, used for the save/restore claims.
-/

/-- JS `Math.round` (round half toward positive infinity). -/
def jsRound (q : ℚ) : ℤ := ⌊q + 1/2⌋

/-- JS truthiness of an optional string (`undefined` and `""` are falsy). -/
def jsTruthy : Option String → Bool
  | none => false
  | some s => s ≠ ""

/-- JS `a || b` on strings: `a` when non-empty, else `b`. -/
def jsOrElse (a b : String) : String := if a = "" then b else a

/-- The 4-element corner-radius array `[leftTop, rightTop, rightBottom, leftBottom]`
(source type `LeftTopRightTopRightBottomLeftBottomRadii`). -/
structure Radii where
  r0 : ℚ
  r1 : ℚ
  r2 : ℚ
  r3 : ℚ
deriving DecidableEq, Repr

/-- Corner lookup by index, mirroring `radii[i]` on the source array. -/
def Radii.get (r : Radii) : Fin 4 → ℚ
  | 0 => r.r0
  | 1 => r.r1
  | 2 => r.r2
  | 3 => r.r3

/-- The function mapped over the radii array by `changeBorderRadius`:
`x === 0 ? x : x + offset`. -/
def offsetRadius (x offset : ℚ) : ℚ := if x = 0 then x else x + offset

/-- `changeBorderRadius` (canvas-helpers line 51): offsets every nonzero
corner radius, keeping zero radii at zero (`Array.map` unfolded over the
four components). -/
def changeBorderRadius (borderRadius : Radii) (offset : ℚ) : Radii :=
  ⟨offsetRadius borderRadius.r0 offset, offsetRadius borderRadius.r1 offset,
   offsetRadius borderRadius.r2 offset, offsetRadius borderRadius.r3 offset⟩

/-- One operation on the 2D drawing surface.  Constant angle arguments of
`arc` (0, 2π, anticlockwise) carry no information and are omitted. -/
inductive CanvasOp where
  | save : CanvasOp
  | restore : CanvasOp
  | setCompositeOperation : String → CanvasOp
  | setFillStyle : String → CanvasOp
  | setFillStyleGradient : ℚ → ℚ → ℚ → ℚ → List (ℚ × String) → CanvasOp
  | setStrokeStyle : String → CanvasOp
  | setLineWidth : ℚ → CanvasOp
  | setFont : String → CanvasOp
  | setTextAlign : String → CanvasOp
  | setTextBaseline : String → CanvasOp
  | beginPath : CanvasOp
  | closePath : CanvasOp
  | moveTo : ℚ → ℚ → CanvasOp
  | lineTo : ℚ → ℚ → CanvasOp
  | arcTo : ℚ → ℚ → ℚ → ℚ → ℚ → CanvasOp
  | arc : ℚ → ℚ → ℚ → CanvasOp
  | roundRect : ℚ → ℚ → ℚ → ℚ → Radii → CanvasOp
  | fillRect : ℚ → ℚ → ℚ → ℚ → CanvasOp
  | fill : CanvasOp
  | stroke : CanvasOp
  | fillText : String → ℚ → ℚ → CanvasOp
deriving DecidableEq, Repr

/-- `clearRect` (canvas-helpers line 39). -/
def clearRect (x y w h : ℚ) (clearColor : String) : List CanvasOp :=
  [CanvasOp.save, CanvasOp.setCompositeOperation "copy",
   CanvasOp.setFillStyle clearColor, CanvasOp.fillRect x y w h,
   CanvasOp.restore]

/-- `clearRectWithGradient` (canvas-helpers line 201). -/
def clearRectWithGradient (x y w h : ℚ) (topColor bottomColor : String) :
    List CanvasOp :=
  [CanvasOp.save, CanvasOp.setCompositeOperation "copy",
   CanvasOp.setFillStyleGradient 0 0 0 h [(0, topColor), (1, bottomColor)],
   CanvasOp.fillRect x y w h,
   CanvasOp.restore]

/-- `drawRoundRect` (canvas-helpers line 55).  `hasRoundRect` is the
feature-detection branch `if (ctx.roundRect)`; the fallback builds the
path from `lineTo`/`arcTo` segments, skipping the arc at zero radii. -/
def drawRoundRect (hasRoundRect : Bool) (x y w h : ℚ) (radii : Radii) :
    List CanvasOp :=
  CanvasOp.beginPath ::
  (if hasRoundRect then
    [CanvasOp.roundRect x y w h radii]
  else
    CanvasOp.lineTo (x + w - radii.r1) y ::
    (if radii.r1 ≠ 0 then
      [CanvasOp.arcTo (x + w) y (x + w) (y + radii.r1) radii.r1] else []) ++
    (CanvasOp.lineTo (x + w) (y + h - radii.r2) ::
    (if radii.r2 ≠ 0 then
      [CanvasOp.arcTo (x + w) (y + h) (x + w - radii.r2) (y + h) radii.r2] else []) ++
    (CanvasOp.lineTo (x + radii.r3) (y + h) ::
    (if radii.r3 ≠ 0 then
      [CanvasOp.arcTo x (y + h) x (y + h - radii.r3) radii.r3] else []) ++
    (CanvasOp.lineTo x (y + radii.r0) ::
    (if radii.r0 ≠ 0 then
      [CanvasOp.arcTo x y (x + radii.r0) y radii.r0] else [])))))

def ADD_BUTTON_SIZE : ℚ := 21
def DRAG_HANDLE_SIZE : ℚ := 12

/-- `drawCloseButton` (canvas-helpers line 100). -/
def drawCloseButton (x y side : ℚ) (backgroundColor textColor : String) :
    List CanvasOp :=
  [CanvasOp.setFillStyle backgroundColor, CanvasOp.fillRect x y side side,
   CanvasOp.beginPath,
   CanvasOp.moveTo (x + 4) (y + 4),
   CanvasOp.lineTo (x + side - 4) (y + side - 4),
   CanvasOp.moveTo (x + side - 4) (y + 4),
   CanvasOp.lineTo (x + 4) (y + side - 4),
   CanvasOp.setStrokeStyle (jsOrElse textColor "#FFFFFF"),
   CanvasOp.setLineWidth (3/2),
   CanvasOp.stroke]

/-- `drawDragHandle` (canvas-helpers line 115).  The `forEach` over the
six-element literal coordinate list is unfolded; `height` abbreviates
`side - shift * 2` with `shift = 4`, `radius = 1`. -/
def drawDragHandle (x y side : ℚ) (backgroundColor textColor : String) :
    List CanvasOp :=
  let h := side - 8
  [CanvasOp.setFillStyle backgroundColor, CanvasOp.beginPath,
   CanvasOp.moveTo (x + 4) (y + 4), CanvasOp.arc (x + 4) (y + 4) 1,
   CanvasOp.moveTo (x + 4) (y + 4 + h/2), CanvasOp.arc (x + 4) (y + 4 + h/2) 1,
   CanvasOp.moveTo (x + 4) (y + 4 + h), CanvasOp.arc (x + 4) (y + 4 + h) 1,
   CanvasOp.moveTo (x + 8) (y + 4), CanvasOp.arc (x + 8) (y + 4) 1,
   CanvasOp.moveTo (x + 8) (y + 4 + h/2), CanvasOp.arc (x + 8) (y + 4 + h/2) 1,
   CanvasOp.moveTo (x + 8) (y + 4 + h), CanvasOp.arc (x + 8) (y + 4 + h) 1,
   CanvasOp.setFillStyle textColor, CanvasOp.fill,
   CanvasOp.setStrokeStyle (jsOrElse textColor "#FFFFFF"),
   CanvasOp.setLineWidth 1,
   CanvasOp.stroke]

/-- `drawRoundRectWithBorder` (canvas-helpers line 143).  The first branch
is the guard `!borderWidth || !borderColor || borderColor === backgroundColor`
(single background fill); otherwise the two-rectangle technique draws the
half-inset path, optionally fills the full-inset background with the
affordances, and strokes the border when it is not transparent.  Both
return paths end with `ctx.restore()` (lines 164 and 197). -/
def drawRoundRectWithBorder (hasRoundRect : Bool) (left top width height : ℚ)
    (backgroundColor : String) (borderWidth : ℚ)
    (outerBorderRadius : Radii) (borderColor textColor : String)
    (draggable closeButton : Bool) : List CanvasOp :=
  CanvasOp.save ::
  ((if borderWidth = 0 ∨ borderColor = "" ∨ borderColor = backgroundColor then
      drawRoundRect hasRoundRect left top width height outerBorderRadius ++
      [CanvasOp.setFillStyle backgroundColor, CanvasOp.fill]
    else
      let halfBorderWidth := borderWidth / 2
      let dragHandleSize := if draggable then DRAG_HANDLE_SIZE else 0
      let radii := changeBorderRadius outerBorderRadius (-halfBorderWidth)
      drawRoundRect hasRoundRect (left + halfBorderWidth) (top + halfBorderWidth)
        (width - borderWidth) (height - borderWidth) radii ++
      (if backgroundColor ≠ "transparent" then
        let offsetRight := if closeButton then ADD_BUTTON_SIZE + dragHandleSize + 1 else 0
        let fixedWidth := if closeButton then width + dragHandleSize else width
        let innerRadii := changeBorderRadius outerBorderRadius (-borderWidth)
        drawRoundRect hasRoundRect (left + borderWidth - offsetRight)
          (top + borderWidth) (fixedWidth - borderWidth * 2)
          (height - borderWidth * 2) innerRadii ++
        [CanvasOp.setFillStyle backgroundColor, CanvasOp.fill] ++
        (if draggable then
          drawDragHandle (left + borderWidth - offsetRight) top height
            backgroundColor textColor else []) ++
        (if closeButton then
          drawCloseButton (left + fixedWidth - height - offsetRight) top height
            backgroundColor textColor else [])
      else []) ++
      (if borderColor ≠ "transparent" then
        [CanvasOp.setLineWidth borderWidth, CanvasOp.setStrokeStyle borderColor,
         CanvasOp.closePath, CanvasOp.stroke]
      else [])) ++
  [CanvasOp.restore])

def CLOSE_BUTTON_SIZE : ℚ := 16
def ICON_SIZE : ℚ := 13

/-- The fields of `PriceAxisViewRendererData` read by the renderer. -/
structure PriceAxisViewRendererData where
  visible : Bool
  text : String
  color : String
  tickVisible : Bool
  moveTextToInvisibleTick : Bool
  separatorVisible : Bool
  borderVisible : Bool
deriving DecidableEq, Repr

/-- The fields of `PriceAxisViewRendererCommonData` read by the renderer.
`fixedCoordinate` is nullable in the source (`??` fallback). -/
structure PriceAxisViewRendererCommonData where
  background : String
  coordinate : ℚ
  fixedCoordinate : Option ℚ
  additionalPaddingTop : ℚ
  additionalPaddingBottom : ℚ
deriving DecidableEq, Repr

/-- The fields of `PriceAxisViewRendererOptions` read by the renderer. -/
structure PriceAxisViewRendererOptions where
  fontSize : ℚ
  font : String
  paddingTop : ℚ
  paddingBottom : ℚ
  paddingInner : ℚ
  paddingOuter : ℚ
  tickLength : ℚ
  borderSize : ℚ
  paneBackgroundColor : String
deriving DecidableEq, Repr

/-- The bitmap-coordinate rendering scope: canvas sizes and pixel ratios.
Bitmap sizes are physical-pixel integers. -/
structure BitmapCoordinatesRenderingScope where
  bitmapWidth : ℤ
  mediaWidth : ℚ
  horizontalPixelRatio : ℚ
  verticalPixelRatio : ℚ
deriving DecidableEq, Repr

/-- The text-measurement collaborator, as a pure oracle from the string
(metrics for the current font). -/
structure TextWidthCache where
  measureText : String → ℚ
  yMidCorrection : String → ℚ

/-- The bitmap-space group of the `Geometry` record. -/
structure GeometryBitmap where
  yTop : ℤ
  yMid : ℤ
  yBottom : ℤ
  totalWidth : ℤ
  totalHeight : ℤ
  radius : ℚ
  horzBorder : ℤ
  xOutside : ℤ
  xInside : ℤ
  xTick : ℤ
  tickHeight : ℤ
  right : ℤ
deriving DecidableEq, Repr

/-- The media-space group of the `Geometry` record. -/
structure GeometryMedia where
  yTop : ℚ
  yBottom : ℚ
  xText : ℚ
  textMidCorrection : ℚ
deriving DecidableEq, Repr

/-- The `Geometry` record returned by `_calculateGeometry`. -/
structure Geometry where
  alignRight : Bool
  bitmap : GeometryBitmap
  media : GeometryMedia
deriving DecidableEq, Repr

/-- Local `tickSize` of `_calculateGeometry` (line 393):
`(tickVisible || !moveTextToInvisibleTick) ? tickLength : 0`. -/
def tickSizeOf (d : PriceAxisViewRendererData) (o : PriceAxisViewRendererOptions) : ℚ :=
  if d.tickVisible || !d.moveTextToInvisibleTick then o.tickLength else 0

/-- Local `horzBorder` of `_calculateGeometry` (line 394):
`separatorVisible ? borderSize : 0`. -/
def horzBorderOf (d : PriceAxisViewRendererData) (o : PriceAxisViewRendererOptions) : ℚ :=
  if d.separatorVisible then o.borderSize else 0

/-- Local `textWidth` of `_calculateGeometry` (line 403):
`this._iconColor ? ICON_SIZE : Math.ceil(measureText(text))`
(the icon test is JS truthiness on an optional string). -/
def textWidthOf (iconColor : Option String) (twc : TextWidthCache) (text : String) : ℚ :=
  if jsTruthy iconColor then ICON_SIZE else ⌈twc.measureText text⌉

/-- Local `totalHeight` of `_calculateGeometry` (lines 395-405):
font size plus the paddings augmented by the per-call additional offsets. -/
def totalHeightOf (o : PriceAxisViewRendererOptions)
    (c : PriceAxisViewRendererCommonData) : ℚ :=
  o.fontSize + (o.paddingTop + c.additionalPaddingTop)
    + (o.paddingBottom + c.additionalPaddingBottom)

/-- Local `totalWidth` of `_calculateGeometry` (line 407). -/
def totalWidthOf (o : PriceAxisViewRendererOptions) (textWidth tickSize : ℚ)
    (closeButton : Bool) : ℚ :=
  o.borderSize + o.paddingInner + o.paddingOuter + textWidth + tickSize
    + (if closeButton then CLOSE_BUTTON_SIZE else 0)

/-- Local `tickHeightBitmap` (line 409): `max(1, floor(verticalPixelRatio))`. -/
def tickHeightBitmapOf (verticalPixelRatio : ℚ) : ℤ :=
  max 1 ⌊verticalPixelRatio⌋

/-- Locals of lines 410-413: the rounded total height, then the parity
adjustment toward the tick bitmap height. -/
def totalHeightBitmapOf (verticalPixelRatio totalHeight : ℚ) : ℤ :=
  let t := jsRound (totalHeight * verticalPixelRatio)
  if t % 2 ≠ tickHeightBitmapOf verticalPixelRatio % 2 then t + 1 else t

/-- `_calculateGeometry` (renderer lines 385-477), with the text-metrics
collaborator passed as an oracle and `this._iconColor` (assigned from the
`draw` argument before the call) passed explicitly. -/
def calculateGeometry (scope : BitmapCoordinatesRenderingScope)
    (d : PriceAxisViewRendererData) (c : PriceAxisViewRendererCommonData)
    (o : PriceAxisViewRendererOptions) (twc : TextWidthCache)
    (alignIsRight : Bool) (closeButton : Bool) (iconColor : Option String) :
    Geometry :=
  let tickSize := tickSizeOf d o
  let horzBorder := horzBorderOf d o
  let paddingInner := o.paddingInner
  let text := d.text
  let textMidCorrection := twc.yMidCorrection text
  let textWidth := textWidthOf iconColor twc text
  let totalHeight := totalHeightOf o c
  let totalWidth := totalWidthOf o textWidth tickSize closeButton
  let tickHeightBitmap := tickHeightBitmapOf scope.verticalPixelRatio
  let totalHeightBitmap := totalHeightBitmapOf scope.verticalPixelRatio totalHeight
  let horzBorderBitmap : ℤ :=
    if horzBorder > 0 then max 1 ⌊horzBorder * scope.horizontalPixelRatio⌋ else 0
  let totalWidthBitmap := jsRound (totalWidth * scope.horizontalPixelRatio)
  let tickSizeBitmap := jsRound (tickSize * scope.horizontalPixelRatio)
  let yMid := c.fixedCoordinate.getD c.coordinate
  let yMidBitmap :=
    jsRound (yMid * scope.verticalPixelRatio) - ⌊scope.verticalPixelRatio * (1/2)⌋
  let yTopBitmap :=
    ⌊(yMidBitmap : ℚ) + (tickHeightBitmap : ℚ) / 2 - (totalHeightBitmap : ℚ) / 2⌋
  let yBottomBitmap := yTopBitmap + totalHeightBitmap
  let alignRight := alignIsRight
  let xInside : ℚ := if alignRight then scope.mediaWidth - horzBorder else horzBorder
  let xInsideBitmap : ℤ :=
    if alignRight then scope.bitmapWidth - horzBorderBitmap else horzBorderBitmap
  let xOutsideBitmap : ℤ :=
    if alignRight then xInsideBitmap - totalWidthBitmap
    else xInsideBitmap + totalWidthBitmap
  let xTickBitmap : ℤ :=
    if alignRight then xInsideBitmap - tickSizeBitmap
    else xInsideBitmap + tickSizeBitmap
  let xText : ℚ :=
    if alignRight then xInside - tickSize - paddingInner - horzBorder
    else xInside + tickSize + paddingInner
  { alignRight := alignRight
    bitmap :=
      { yTop := yTopBitmap
        yMid := yMidBitmap
        yBottom := yBottomBitmap
        totalWidth := totalWidthBitmap
        totalHeight := totalHeightBitmap
        radius := 2 * scope.horizontalPixelRatio
        horzBorder := horzBorderBitmap
        xOutside := xOutsideBitmap
        xInside := xInsideBitmap
        xTick := xTickBitmap
        tickHeight := tickHeightBitmap
        right := scope.bitmapWidth }
    media :=
      { yTop := (yTopBitmap : ℚ) / scope.verticalPixelRatio
        yBottom := (yBottomBitmap : ℚ) / scope.verticalPixelRatio
        xText := xText
        textMidCorrection := textMidCorrection } }

/-- `height` (renderer lines 272-278): 0 when not visible, else
`fontSize + paddingTop + paddingBottom` from the options alone.  The
`useSecondLine` argument is unused in the source. -/
def height (d : PriceAxisViewRendererData) (o : PriceAxisViewRendererOptions)
    (useSecondLine : Bool) : ℚ :=
  if !d.visible then 0
  else o.fontSize + o.paddingTop + o.paddingBottom

/-- `draw` (renderer lines 281-383), as the ordered trace of
drawing-surface operations it issues: the bitmap-scope section (font, two
label bodies around the tick, separator) followed by the media-scope
section (text or icon).  The guard at line 290 short-circuits to the
empty trace. -/
def draw (hasRoundRect : Bool) (scope : BitmapCoordinatesRenderingScope)
    (d : PriceAxisViewRendererData) (c : PriceAxisViewRendererCommonData)
    (o : PriceAxisViewRendererOptions) (twc : TextWidthCache)
    (alignIsRight : Bool) (draggable closeButton : Bool)
    (iconColor : Option String) : List CanvasOp :=
  if !d.visible || d.text.length = 0 then []
  else
    let textColor := d.color
    let backgroundColor := c.background
    let geom := calculateGeometry scope d c o twc alignIsRight closeButton iconColor
    let gb := geom.bitmap
    let drawLabelBody : String → String → List CanvasOp :=
      fun labelBackgroundColor labelBorderColor =>
        if geom.alignRight then
          drawRoundRectWithBorder hasRoundRect (gb.xOutside : ℚ) (gb.yTop : ℚ)
            (gb.totalWidth : ℚ) (gb.totalHeight : ℚ) labelBackgroundColor
            (gb.horzBorder : ℚ) ⟨gb.radius, 0, 0, gb.radius⟩ labelBorderColor
            textColor draggable closeButton
        else
          drawRoundRectWithBorder hasRoundRect (gb.xInside : ℚ) (gb.yTop : ℚ)
            (gb.totalWidth : ℚ) (gb.totalHeight : ℚ) labelBackgroundColor
            (gb.horzBorder : ℚ) ⟨0, gb.radius, gb.radius, 0⟩ labelBorderColor
            textColor draggable closeButton
    CanvasOp.setFont o.font ::
    drawLabelBody backgroundColor "transparent" ++
    (if d.tickVisible then
      [CanvasOp.setFillStyle textColor,
       CanvasOp.fillRect (gb.xInside : ℚ) (gb.yMid : ℚ)
         ((gb.xTick : ℚ) - (gb.xInside : ℚ)) (gb.tickHeight : ℚ)]
    else []) ++
    drawLabelBody "transparent" backgroundColor ++
    (if d.borderVisible then
      [CanvasOp.setFillStyle o.paneBackgroundColor,
       CanvasOp.fillRect
         (if geom.alignRight then (gb.right : ℚ) - (gb.horzBorder : ℚ) else 0)
         (gb.yTop : ℚ) (gb.horzBorder : ℚ) ((gb.yBottom : ℚ) - (gb.yTop : ℚ))]
    else []) ++
    (let gm := geom.media
     let xOffset := if d.moveTextToInvisibleTick && closeButton then
         gm.xText - CLOSE_BUTTON_SIZE - ADD_BUTTON_SIZE
       else gm.xText
     if jsTruthy iconColor then
       [CanvasOp.setFont "13px icomoon", CanvasOp.setTextAlign "left",
        CanvasOp.setTextBaseline "middle",
        CanvasOp.setFillStyle (iconColor.getD ""),
        CanvasOp.fillText "" (xOffset - ICON_SIZE)
          ((gm.yTop + gm.yBottom) / 2 + gm.textMidCorrection - 1)]
     else
       [CanvasOp.setFont o.font,
        CanvasOp.setTextAlign (if geom.alignRight then "right" else "left"),
        CanvasOp.setTextBaseline "middle",
        CanvasOp.setFillStyle textColor,
        CanvasOp.fillText d.text xOffset
          ((gm.yTop + gm.yBottom) / 2 + gm.textMidCorrection - 1)])

/-- The fill style of a drawing surface: a plain color or a linear
gradient with its color stops. -/
inductive FillStyleVal where
  | color : String → FillStyleVal
  | gradient : ℚ → ℚ → ℚ → ℚ → List (ℚ × String) → FillStyleVal
deriving DecidableEq, Repr

/-- The mutable style state of the drawing surface that `save`/`restore`
snapshots: fill and stroke styles, line width, composite operation, font
and text settings. -/
structure CanvasState where
  fillStyle : FillStyleVal
  strokeStyle : String
  lineWidth : ℚ
  compositeOperation : String
  font : String
  textAlign : String
  textBaseline : String
deriving DecidableEq, Repr

/-- Effect of one non-stack operation on the style state; path and paint
operations leave the style state unchanged. -/
def execStyle (op : CanvasOp) (s : CanvasState) : CanvasState :=
  match op with
  | CanvasOp.setCompositeOperation c => { s with compositeOperation := c }
  | CanvasOp.setFillStyle c => { s with fillStyle := FillStyleVal.color c }
  | CanvasOp.setFillStyleGradient a b cc dd stops =>
      { s with fillStyle := FillStyleVal.gradient a b cc dd stops }
  | CanvasOp.setStrokeStyle c => { s with strokeStyle := c }
  | CanvasOp.setLineWidth w => { s with lineWidth := w }
  | CanvasOp.setFont f => { s with font := f }
  | CanvasOp.setTextAlign a => { s with textAlign := a }
  | CanvasOp.setTextBaseline b => { s with textBaseline := b }
  | _ => s

/-- Whether an operation manipulates the state stack. -/
def isStackOp : CanvasOp → Bool
  | CanvasOp.save => true
  | CanvasOp.restore => true
  | _ => false

/-- Run a trace over the style state and the save/restore stack.
`restore` on an empty stack is a no-op, as on a real surface. -/
def runCanvas : List CanvasOp → CanvasState → List CanvasState →
    CanvasState × List CanvasState
  | [], s, stk => (s, stk)
  | CanvasOp.save :: rest, s, stk => runCanvas rest s (s :: stk)
  | CanvasOp.restore :: rest, s, stk =>
      match stk with
      | [] => runCanvas rest s []
      | s1 :: stk1 => runCanvas rest s1 stk1
  | op :: rest, s, stk => runCanvas rest (execStyle op s) stk

/-- The total label width as the specification words it: border size +
inner padding + outer padding + content width (fixed icon width in icon
mode, else measured text width rounded up) + effective tick length
(the configured length when the tick is visible or text is not moved away
from an invisible tick, else 0) + close-affordance width when requested. -/
def spec_totalWidth (o : PriceAxisViewRendererOptions)
    (d : PriceAxisViewRendererData) (twc : TextWidthCache)
    (iconColor : Option String) (closeButton : Bool) : ℚ :=
  o.borderSize + o.paddingInner + o.paddingOuter
    + (if jsTruthy iconColor then ICON_SIZE else ⌈twc.measureText d.text⌉)
    + (if d.tickVisible = true ∨ d.moveTextToInvisibleTick = false then o.tickLength else 0)
    + (if closeButton then CLOSE_BUTTON_SIZE else 0)

/-- Concrete example scope: 100-pixel-wide surface, horizontal ratio 1,
vertical ratio 2. -/
def scopeEx : BitmapCoordinatesRenderingScope := ⟨100, 100, 1, 2⟩

/-- Concrete example label data: visible two-character text, tick and
separator visible, separator-draw flag off. -/
def dEx : PriceAxisViewRendererData :=
  ⟨true, "ab", "TXT", true, false, true, false⟩

/-- Concrete example common data: anchor at 5, no extra paddings. -/
def cEx : PriceAxisViewRendererCommonData := ⟨"BG", 5, none, 0, 0⟩

/-- Concrete example options with pairwise distinct colors. -/
def oEx : PriceAxisViewRendererOptions := ⟨12, "F", 2, 2, 3, 2, 5, 1, "PANE"⟩

/-- Concrete example text metrics: every string measures 10 logical
pixels wide with zero baseline correction. -/
def twcEx : TextWidthCache := ⟨fun _ => 10, fun _ => 0⟩

/-- Whether an operation paints a fill (a path fill or a rectangle fill). -/
def isFillOp : CanvasOp → Bool
  | CanvasOp.fill => true
  | CanvasOp.fillRect _ _ _ _ => true
  | _ => false

/-- Number of fill operations issued by a trace. -/
def countFillOps (l : List CanvasOp) : ℕ := l.countP isFillOp

/-- Concrete example label data with the separator-draw flag on. -/
def dEx2 : PriceAxisViewRendererData :=
  ⟨true, "ab", "TXT", true, false, true, true⟩

/-- C1: for any vertical pixel ratio at least 1, the geometry record has
bitmap total height and bitmap tick height of equal parity; when the
rounded total height's parity differs from the tick height's parity the
result is the rounded value plus exactly 1; at ratio 3/2 the tick bitmap
height is 1, so an even rounded total height becomes odd. -/
theorem claim_C1_parity (scope : BitmapCoordinatesRenderingScope)
    (d : PriceAxisViewRendererData) (c : PriceAxisViewRendererCommonData)
    (o : PriceAxisViewRendererOptions) (twc : TextWidthCache)
    (a cb : Bool) (ic : Option String)
    (hr : 1 ≤ scope.verticalPixelRatio) :
    (calculateGeometry scope d c o twc a cb ic).bitmap.totalHeight % 2 =
      (calculateGeometry scope d c o twc a cb ic).bitmap.tickHeight % 2 ∧
    (jsRound (totalHeightOf o c * scope.verticalPixelRatio) % 2 ≠
        tickHeightBitmapOf scope.verticalPixelRatio % 2 →
      (calculateGeometry scope d c o twc a cb ic).bitmap.totalHeight =
        jsRound (totalHeightOf o c * scope.verticalPixelRatio) + 1) ∧
    (scope.verticalPixelRatio = 3/2 →
      (calculateGeometry scope d c o twc a cb ic).bitmap.tickHeight = 1 ∧
      (jsRound (totalHeightOf o c * scope.verticalPixelRatio) % 2 = 0 →
        (calculateGeometry scope d c o twc a cb ic).bitmap.totalHeight % 2 = 1)) := by
  have hth : (calculateGeometry scope d c o twc a cb ic).bitmap.totalHeight =
      totalHeightBitmapOf scope.verticalPixelRatio (totalHeightOf o c) := rfl
  have htk : (calculateGeometry scope d c o twc a cb ic).bitmap.tickHeight =
      tickHeightBitmapOf scope.verticalPixelRatio := rfl
  rw [hth, htk]
  refine ⟨?_, ?_, ?_⟩
  · simp only [totalHeightBitmapOf]
    split_ifs with hp
    · omega
    · omega
  · intro hp
    simp only [totalHeightBitmapOf]
    rw [if_pos hp]
  · intro hv
    have h1 : tickHeightBitmapOf scope.verticalPixelRatio = 1 := by
      rw [hv]
      unfold tickHeightBitmapOf
      norm_num
    refine ⟨h1, ?_⟩
    intro heven
    simp only [totalHeightBitmapOf]
    rw [h1]
    have hc : jsRound (totalHeightOf o c * scope.verticalPixelRatio) % 2 ≠ 1 % 2 := by
      omega
    rw [if_pos hc]
    omega

/-- Witness for C1: ratio 3/2, logical total height 16 (font 12, paddings
2 each, no additional offsets); the rounded bitmap height 24 is even, the
tick height 1 is odd, and the adjusted total height 25 matches parity. -/
theorem claim_C1_parity_witness :
    (calculateGeometry ⟨100, 100, 1, 3/2⟩
        ⟨true, "a", "T", true, false, true, true⟩
        ⟨"B", 10, none, 0, 0⟩
        ⟨12, "f", 2, 2, 3, 2, 5, 1, "P"⟩
        ⟨fun _ => 7, fun _ => 0⟩ true false none).bitmap.totalHeight % 2 =
      (calculateGeometry ⟨100, 100, 1, 3/2⟩
        ⟨true, "a", "T", true, false, true, true⟩
        ⟨"B", 10, none, 0, 0⟩
        ⟨12, "f", 2, 2, 3, 2, 5, 1, "P"⟩
        ⟨fun _ => 7, fun _ => 0⟩ true false none).bitmap.tickHeight % 2 ∧
    (calculateGeometry ⟨100, 100, 1, 3/2⟩
        ⟨true, "a", "T", true, false, true, true⟩
        ⟨"B", 10, none, 0, 0⟩
        ⟨12, "f", 2, 2, 3, 2, 5, 1, "P"⟩
        ⟨fun _ => 7, fun _ => 0⟩ true false none).bitmap.totalHeight = 25 :=
  ⟨(claim_C1_parity ⟨100, 100, 1, 3/2⟩ ⟨true, "a", "T", true, false, true, true⟩
      ⟨"B", 10, none, 0, 0⟩ ⟨12, "f", 2, 2, 3, 2, 5, 1, "P"⟩
      ⟨fun _ => 7, fun _ => 0⟩ true false none (by norm_num)).1,
   by norm_num [calculateGeometry, totalHeightBitmapOf, tickHeightBitmapOf,
     totalHeightOf, jsRound]⟩

/-- C5: the bitmap vertical center is the rounded anchor coordinate minus
half a vertical-ratio unit (floored), with the anchor taken from
`fixedCoordinate` when present and `coordinate` otherwise; the bitmap top
is the floor of mid + tickHeight/2 - totalHeight/2 and the bitmap bottom
is top + totalHeight. -/
theorem claim_C5_vertical_anchor (scope : BitmapCoordinatesRenderingScope)
    (d : PriceAxisViewRendererData) (c : PriceAxisViewRendererCommonData)
    (o : PriceAxisViewRendererOptions) (twc : TextWidthCache)
    (a cb : Bool) (ic : Option String) :
    (calculateGeometry scope d c o twc a cb ic).bitmap.yMid =
      jsRound (c.fixedCoordinate.getD c.coordinate * scope.verticalPixelRatio) -
        ⌊scope.verticalPixelRatio * (1/2)⌋ ∧
    (calculateGeometry scope d c o twc a cb ic).bitmap.yTop =
      ⌊((calculateGeometry scope d c o twc a cb ic).bitmap.yMid : ℚ) +
        ((calculateGeometry scope d c o twc a cb ic).bitmap.tickHeight : ℚ) / 2 -
        ((calculateGeometry scope d c o twc a cb ic).bitmap.totalHeight : ℚ) / 2⌋ ∧
    (calculateGeometry scope d c o twc a cb ic).bitmap.yBottom =
      (calculateGeometry scope d c o twc a cb ic).bitmap.yTop +
        (calculateGeometry scope d c o twc a cb ic).bitmap.totalHeight :=
  ⟨rfl, rfl, rfl⟩

/-- C6: the logical total width computed by the geometry engine agrees
with the specification formula `spec_totalWidth`, and the bitmap total
width of the geometry record is that width scaled by the horizontal pixel
ratio and rounded. -/
theorem claim_C6_totalWidth (scope : BitmapCoordinatesRenderingScope)
    (d : PriceAxisViewRendererData) (c : PriceAxisViewRendererCommonData)
    (o : PriceAxisViewRendererOptions) (twc : TextWidthCache)
    (a cb : Bool) (ic : Option String) (hv : d.visible = true) :
    totalWidthOf o (textWidthOf ic twc d.text) (tickSizeOf d o) cb =
      spec_totalWidth o d twc ic cb ∧
    (calculateGeometry scope d c o twc a cb ic).bitmap.totalWidth =
      jsRound (spec_totalWidth o d twc ic cb * scope.horizontalPixelRatio) := by
  have heq : totalWidthOf o (textWidthOf ic twc d.text) (tickSizeOf d o) cb =
      spec_totalWidth o d twc ic cb := by
    unfold totalWidthOf spec_totalWidth textWidthOf tickSizeOf
    cases htv : d.tickVisible <;> cases hmv : d.moveTextToInvisibleTick <;> simp
  refine ⟨heq, ?_⟩
  rw [← heq]
  rfl

/-- Witness for C6: a visible two-character label, measured width 7/2
(rounded up to 4), tick visible, with a close affordance, at horizontal
ratio 2. -/
theorem claim_C6_totalWidth_witness :
    totalWidthOf ⟨12, "f", 2, 2, 3, 2, 5, 1, "P"⟩
        (textWidthOf none ⟨fun _ => 7/2, fun _ => 0⟩ "ab")
        (tickSizeOf ⟨true, "ab", "T", true, false, true, true⟩
          ⟨12, "f", 2, 2, 3, 2, 5, 1, "P"⟩) true =
      spec_totalWidth ⟨12, "f", 2, 2, 3, 2, 5, 1, "P"⟩
        ⟨true, "ab", "T", true, false, true, true⟩
        ⟨fun _ => 7/2, fun _ => 0⟩ none true ∧
    (calculateGeometry ⟨200, 100, 2, 1⟩ ⟨true, "ab", "T", true, false, true, true⟩
        ⟨"B", 10, none, 0, 0⟩ ⟨12, "f", 2, 2, 3, 2, 5, 1, "P"⟩
        ⟨fun _ => 7/2, fun _ => 0⟩ true true none).bitmap.totalWidth =
      jsRound (spec_totalWidth ⟨12, "f", 2, 2, 3, 2, 5, 1, "P"⟩
        ⟨true, "ab", "T", true, false, true, true⟩
        ⟨fun _ => 7/2, fun _ => 0⟩ none true * 2) :=
  claim_C6_totalWidth ⟨200, 100, 2, 1⟩ ⟨true, "ab", "T", true, false, true, true⟩
    ⟨"B", 10, none, 0, 0⟩ ⟨12, "f", 2, 2, 3, 2, 5, 1, "P"⟩
    ⟨fun _ => 7/2, fun _ => 0⟩ true true none rfl

/-- C7 counterexample: with font size 12 and base paddings 2 but an
additional per-call top padding of 3, the geometry engine's logical total
height is 19 while `height` reports 16, so `height` does not report the
padding-augmented total height the claim states. -/
theorem claim_C7_height_cx :
    totalHeightOf ⟨12, "f", 2, 2, 3, 2, 5, 1, "P"⟩ ⟨"B", 10, none, 3, 0⟩ = 19 ∧
    height ⟨true, "ab", "T", true, false, true, true⟩
      ⟨12, "f", 2, 2, 3, 2, 5, 1, "P"⟩ false = 16 ∧
    ¬(height ⟨true, "ab", "T", true, false, true, true⟩
        ⟨12, "f", 2, 2, 3, 2, 5, 1, "P"⟩ false =
      totalHeightOf ⟨12, "f", 2, 2, 3, 2, 5, 1, "P"⟩ ⟨"B", 10, none, 3, 0⟩) := by
  refine ⟨by norm_num [totalHeightOf], by norm_num [height], ?_⟩
  norm_num [height, totalHeightOf]

/-- C7 (amended): the geometry engine's logical total height is the font
size plus the paddings augmented by the per-call additional offsets;
`height` reports the font size plus the base paddings only, which equals
the total height exactly when the additional offsets are zero.  In the
concrete scenario (font 12, paddings 2, no offsets) the reported height is
16, the bitmap height at vertical ratio 2 is 32 and the tick bitmap
height is 2. -/
theorem claim_C7_height_amended (d : PriceAxisViewRendererData)
    (c : PriceAxisViewRendererCommonData) (o : PriceAxisViewRendererOptions)
    (u : Bool) (hv : d.visible = true)
    (ht : c.additionalPaddingTop = 0) (hb : c.additionalPaddingBottom = 0) :
    totalHeightOf o c = o.fontSize + (o.paddingTop + c.additionalPaddingTop)
      + (o.paddingBottom + c.additionalPaddingBottom) ∧
    height d o u = o.fontSize + o.paddingTop + o.paddingBottom ∧
    height d o u = totalHeightOf o c ∧
    (o.fontSize = 12 → o.paddingTop = 2 → o.paddingBottom = 2 →
      height d o u = 16 ∧
      totalHeightBitmapOf 2 (totalHeightOf o c) = 32 ∧
      tickHeightBitmapOf 2 = 2) := by
  have hh : height d o u = o.fontSize + o.paddingTop + o.paddingBottom := by
    unfold height
    rw [hv]
    rfl
  have htot : totalHeightOf o c = o.fontSize + o.paddingTop + o.paddingBottom := by
    unfold totalHeightOf
    rw [ht, hb]
    ring
  refine ⟨by unfold totalHeightOf; ring, hh, by rw [hh, htot], ?_⟩
  intro h12 hp2 hq2
  refine ⟨by rw [hh, h12, hp2, hq2]; norm_num, ?_, by norm_num [tickHeightBitmapOf]⟩
  rw [htot, h12, hp2, hq2]
  norm_num [totalHeightBitmapOf, tickHeightBitmapOf, jsRound]

/-- Witness for C7 (amended): the theorem applied at the concrete scenario
inputs (font 12, paddings 2, zero additional offsets). -/
theorem claim_C7_height_amended_witness :
    totalHeightOf ⟨12, "f", 2, 2, 3, 2, 5, 1, "P"⟩ ⟨"B", 10, none, 0, 0⟩ =
      12 + (2 + 0) + (2 + 0) ∧
    height ⟨true, "ab", "T", true, false, true, true⟩
      ⟨12, "f", 2, 2, 3, 2, 5, 1, "P"⟩ false = 12 + 2 + 2 ∧
    height ⟨true, "ab", "T", true, false, true, true⟩
      ⟨12, "f", 2, 2, 3, 2, 5, 1, "P"⟩ false =
      totalHeightOf ⟨12, "f", 2, 2, 3, 2, 5, 1, "P"⟩ ⟨"B", 10, none, 0, 0⟩ ∧
    ((12:ℚ) = 12 → (2:ℚ) = 2 → (2:ℚ) = 2 →
      height ⟨true, "ab", "T", true, false, true, true⟩
        ⟨12, "f", 2, 2, 3, 2, 5, 1, "P"⟩ false = 16 ∧
      totalHeightBitmapOf 2
        (totalHeightOf ⟨12, "f", 2, 2, 3, 2, 5, 1, "P"⟩ ⟨"B", 10, none, 0, 0⟩) = 32 ∧
      tickHeightBitmapOf 2 = 2) :=
  claim_C7_height_amended ⟨true, "ab", "T", true, false, true, true⟩
    ⟨"B", 10, none, 0, 0⟩ ⟨12, "f", 2, 2, 3, 2, 5, 1, "P"⟩ false rfl rfl rfl

/-- C8 counterexample: at horizontal ratio 1 and vertical ratio 2 with a
right-aligned label, the media text X offset is 90 while every bitmap X
field divided by either pixel ratio differs from it — the text X offset is
not a bitmap value divided by the vertical ratio. -/
theorem claim_C8_media_cx :
    (calculateGeometry scopeEx dEx cEx oEx twcEx true false none).media.xText = 90 ∧
    (calculateGeometry scopeEx dEx cEx oEx twcEx true false none).bitmap.xTick = 94 ∧
    (calculateGeometry scopeEx dEx cEx oEx twcEx true false none).bitmap.xInside = 99 ∧
    (calculateGeometry scopeEx dEx cEx oEx twcEx true false none).bitmap.xOutside = 78 ∧
    (calculateGeometry scopeEx dEx cEx oEx twcEx true false none).bitmap.right = 100 ∧
    scopeEx.verticalPixelRatio = 2 ∧ scopeEx.horizontalPixelRatio = 1 ∧
    ((90:ℚ) ≠ 94 / 2 ∧ (90:ℚ) ≠ 99 / 2 ∧ (90:ℚ) ≠ 78 / 2 ∧ (90:ℚ) ≠ 100 / 2) ∧
    ((90:ℚ) ≠ 94 / 1 ∧ (90:ℚ) ≠ 99 / 1 ∧ (90:ℚ) ≠ 78 / 1 ∧ (90:ℚ) ≠ 100 / 1) := by
  refine ⟨?_, ?_, ?_, ?_, ?_, rfl, rfl, by norm_num, by norm_num⟩ <;>
    norm_num [calculateGeometry, scopeEx, dEx, cEx, oEx, twcEx, tickSizeOf,
      horzBorderOf, textWidthOf, totalWidthOf, totalHeightOf, tickHeightBitmapOf,
      totalHeightBitmapOf, jsRound, jsTruthy]

/-- C8 (amended): the media top and bottom Y are the bitmap values divided
by the vertical pixel ratio (kept fractional); the media text X offset is
computed directly in logical space from the inside edge, tick length,
inner padding and separator thickness (not by dividing a bitmap value);
the baseline correction comes from the text-metrics collaborator. -/
theorem claim_C8_media_amended (scope : BitmapCoordinatesRenderingScope)
    (d : PriceAxisViewRendererData) (c : PriceAxisViewRendererCommonData)
    (o : PriceAxisViewRendererOptions) (twc : TextWidthCache)
    (a cb : Bool) (ic : Option String) :
    (calculateGeometry scope d c o twc a cb ic).media.yTop =
      ((calculateGeometry scope d c o twc a cb ic).bitmap.yTop : ℚ) /
        scope.verticalPixelRatio ∧
    (calculateGeometry scope d c o twc a cb ic).media.yBottom =
      ((calculateGeometry scope d c o twc a cb ic).bitmap.yBottom : ℚ) /
        scope.verticalPixelRatio ∧
    (calculateGeometry scope d c o twc a cb ic).media.xText =
      (if a then (scope.mediaWidth - horzBorderOf d o) - tickSizeOf d o -
          o.paddingInner - horzBorderOf d o
        else horzBorderOf d o + tickSizeOf d o + o.paddingInner) ∧
    (calculateGeometry scope d c o twc a cb ic).media.textMidCorrection =
      twc.yMidCorrection d.text := by
  cases a <;> exact ⟨rfl, rfl, rfl, rfl⟩

/-- C2 counterexample: a visible label with empty text and no icon color
draws nothing, but `height` reports 16 (font size plus paddings), not the
0 the claim states for an invisible/empty label. -/
theorem claim_C2_noop_cx :
    draw true scopeEx ⟨true, "", "TXT", true, false, true, false⟩ cEx oEx twcEx
      true false false none = [] ∧
    height ⟨true, "", "TXT", true, false, true, false⟩ oEx false = 16 ∧
    ¬(height ⟨true, "", "TXT", true, false, true, false⟩ oEx false = 0) := by
  refine ⟨rfl, by norm_num [height, oEx], by norm_num [height, oEx]⟩

/-- C2 (amended): `draw` issues zero drawing-surface operations whenever
the label is invisible or its text is empty (with or without an icon
color); `height` returns 0 exactly for invisible labels, while a visible
empty-text label still reports the full font-plus-paddings height. -/
theorem claim_C2_noop_amended (hasRoundRect : Bool)
    (scope : BitmapCoordinatesRenderingScope) (d : PriceAxisViewRendererData)
    (c : PriceAxisViewRendererCommonData) (o : PriceAxisViewRendererOptions)
    (twc : TextWidthCache) (a dr cb u : Bool) (ic : Option String)
    (h : d.visible = false ∨ d.text = "") :
    draw hasRoundRect scope d c o twc a dr cb ic = [] ∧
    (d.visible = false → height d o u = 0) := by
  constructor
  · unfold draw
    rcases h with h | h
    · rw [h]
      rfl
    · rw [h]
      simp
  · intro hv
    unfold height
    rw [hv]
    rfl

/-- Witness for C2 (amended): an invisible label draws nothing and
reports zero height. -/
theorem claim_C2_noop_amended_witness :
    draw true scopeEx ⟨false, "ab", "TXT", true, false, true, false⟩ cEx oEx twcEx
      true false false none = [] ∧
    ((false = false) →
      height ⟨false, "ab", "TXT", true, false, true, false⟩ oEx false = 0) :=
  claim_C2_noop_amended true scopeEx ⟨false, "ab", "TXT", true, false, true, false⟩
    cEx oEx twcEx true false false false none (Or.inl rfl)

/-- C10: a corner with zero radius on the outer rectangle stays zero after
`changeBorderRadius` (any offset), and every rounded-rectangle path issued
by `drawRoundRectWithBorder` — outer, half-border-inset, full-border-inset
(all the layers, including the stroked one) — keeps that corner square. -/
theorem claim_C10_squareCorners (r : Radii) (off : ℚ) (i : Fin 4)
    (hrr : Bool) (l t w h bw : ℚ) (bg bc tc : String) (dr cb : Bool)
    (x y ww hh : ℚ) (rs : Radii)
    (h0 : r.get i = 0)
    (hmem : CanvasOp.roundRect x y ww hh rs ∈
      drawRoundRectWithBorder hrr l t w h bg bw r bc tc dr cb) :
    (changeBorderRadius r off).get i = 0 ∧ rs.get i = 0 := by
  have hz : ∀ q : ℚ, (changeBorderRadius r q).get i = 0 := by
    intro q
    fin_cases i <;> simp_all [Radii.get, changeBorderRadius, offsetRadius]
  refine ⟨hz off, ?_⟩
  unfold drawRoundRectWithBorder at hmem
  cases hrr
  · exfalso
    revert hmem
    split_ifs <;> simp [drawRoundRect, drawCloseButton, drawDragHandle]
  · have hza := hz (-(bw/2))
    have hzb := hz (-bw)
    revert hmem
    split_ifs <;>
      simp [drawRoundRect, drawCloseButton, drawDragHandle] <;>
      aesop

/-- Witness for C10: outer radii with a square left-top corner, drawn with
zero border width; the emitted rounded-rect path keeps that corner square,
as does any offset of the radii. -/
theorem claim_C10_squareCorners_witness :
    (changeBorderRadius ⟨0, 5, 6, 7⟩ (-2)).get 0 = 0 ∧
    (Radii.mk 0 5 6 7).get 0 = 0 :=
  claim_C10_squareCorners ⟨0, 5, 6, 7⟩ (-2) 0 true 1 2 3 4 0 "red" "blue" "tc"
    false false 1 2 3 4 ⟨0, 5, 6, 7⟩ rfl
    (by simp [drawRoundRectWithBorder, drawRoundRect])

/-- A rounded-rectangle path issues no fill operations. -/
theorem countFillOps_drawRoundRect (hrr : Bool) (x y w h : ℚ) (r : Radii) :
    countFillOps (drawRoundRect hrr x y w h r) = 0 := by
  cases hrr <;> simp only [drawRoundRect] <;> split_ifs <;>
    simp [countFillOps, isFillOp]

/-- A rounded-rectangle path contains no `closePath`. -/
theorem closePath_not_mem_drawRoundRect (hrr : Bool) (x y w h : ℚ) (r : Radii) :
    CanvasOp.closePath ∉ drawRoundRect hrr x y w h r := by
  cases hrr <;> simp only [drawRoundRect] <;> split_ifs <;> simp

/-- A rounded-rectangle path contains no `stroke`. -/
theorem stroke_not_mem_drawRoundRect (hrr : Bool) (x y w h : ℚ) (r : Radii) :
    CanvasOp.stroke ∉ drawRoundRect hrr x y w h r := by
  cases hrr <;> simp only [drawRoundRect] <;> split_ifs <;> simp

/-- The close-button glyph contains no `closePath`. -/
theorem closePath_not_mem_drawCloseButton (x y s : ℚ) (bg tc : String) :
    CanvasOp.closePath ∉ drawCloseButton x y s bg tc := by
  simp [drawCloseButton]

/-- The drag-handle glyph contains no `closePath`. -/
theorem closePath_not_mem_drawDragHandle (x y s : ℚ) (bg tc : String) :
    CanvasOp.closePath ∉ drawDragHandle x y s bg tc := by
  simp [drawDragHandle]

/-- C3 counterexample: with border width 2, border color "transparent"
and a close affordance requested, `drawRoundRectWithBorder` issues two
fill operations (the inset background fill and the close-button square),
refuting "exactly one fill operation" for the transparent-border case. -/
theorem claim_C3_singleFill_cx :
    countFillOps (drawRoundRectWithBorder true 0 0 20 10 "red" 2 ⟨0, 0, 0, 0⟩
      "transparent" "tc" false true) = 2 ∧
    ¬(countFillOps (drawRoundRectWithBorder true 0 0 20 10 "red" 2 ⟨0, 0, 0, 0⟩
        "transparent" "tc" false true) = 1) := by
  constructor
  · simp [drawRoundRectWithBorder, drawRoundRect, drawCloseButton,
      changeBorderRadius, offsetRadius, countFillOps, isFillOp]
  · simp [drawRoundRectWithBorder, drawRoundRect, drawCloseButton,
      changeBorderRadius, offsetRadius, countFillOps, isFillOp]

/-- C3 (amended): under the claim's guard (zero border width, border color
equal to the background, or border color "transparent") the border-stroke
code path is never executed — `closePath`, issued only there, is absent
from the trace.  With zero border width or border color equal to the
background the trace is the single outer-rectangle background fill.  With
a transparent border color, an opaque background and no affordances there
is also exactly one fill, but of the rectangle inset by the full border
width rather than the outer rectangle; affordances add further fills. -/
theorem claim_C3_singleFill_amended (hrr : Bool) (l t w h bw : ℚ)
    (bg : String) (router : Radii) (bc tc : String) (dr cb : Bool)
    (hg : bw = 0 ∨ bc = bg ∨ bc = "transparent") :
    CanvasOp.closePath ∉
      drawRoundRectWithBorder hrr l t w h bg bw router bc tc dr cb ∧
    (bw = 0 ∨ bc = bg →
      drawRoundRectWithBorder hrr l t w h bg bw router bc tc dr cb =
        CanvasOp.save :: (drawRoundRect hrr l t w h router ++
          [CanvasOp.setFillStyle bg, CanvasOp.fill, CanvasOp.restore]) ∧
      countFillOps (drawRoundRectWithBorder hrr l t w h bg bw router bc tc dr cb) = 1 ∧
      CanvasOp.stroke ∉
        drawRoundRectWithBorder hrr l t w h bg bw router bc tc dr cb) ∧
    (bc = "transparent" → bg ≠ "transparent" → bw ≠ 0 → dr = false → cb = false →
      drawRoundRectWithBorder hrr l t w h bg bw router bc tc dr cb =
        CanvasOp.save :: (drawRoundRect hrr (l + bw/2) (t + bw/2) (w - bw) (h - bw)
            (changeBorderRadius router (-(bw/2))) ++
          (drawRoundRect hrr (l + bw) (t + bw) (w - bw*2) (h - bw*2)
            (changeBorderRadius router (-bw)) ++
          [CanvasOp.setFillStyle bg, CanvasOp.fill, CanvasOp.restore])) ∧
      countFillOps (drawRoundRectWithBorder hrr l t w h bg bw router bc tc dr cb) = 1) := by
  refine ⟨?_, ?_, ?_⟩
  · unfold drawRoundRectWithBorder
    split_ifs with h1 h2 h3 h4 h5 h6 h7 h8 h9 h10 h11 h12 h13 h14 h15 <;>
      simp_all [closePath_not_mem_drawRoundRect, closePath_not_mem_drawCloseButton,
        closePath_not_mem_drawDragHandle] <;>
      tauto
  · intro hab
    have hguard : bw = 0 ∨ bc = "" ∨ bc = bg := by tauto
    have htr : drawRoundRectWithBorder hrr l t w h bg bw router bc tc dr cb =
        CanvasOp.save :: (drawRoundRect hrr l t w h router ++
          [CanvasOp.setFillStyle bg, CanvasOp.fill, CanvasOp.restore]) := by
      unfold drawRoundRectWithBorder
      rw [if_pos hguard]
      simp
    refine ⟨htr, ?_, ?_⟩
    · rw [htr]
      have := countFillOps_drawRoundRect hrr l t w h router
      simp only [countFillOps] at this ⊢
      simp [List.countP_cons, List.countP_append, isFillOp, this]
    · rw [htr]
      simp [stroke_not_mem_drawRoundRect]
  · intro hbc hbg hbw hdr hcb
    subst hbc hdr hcb
    have hne : ¬(bw = 0 ∨ "transparent" = "" ∨ "transparent" = bg) := by
      push_neg
      refine ⟨hbw, by simp, fun hc => hbg hc.symm⟩
    have htr : drawRoundRectWithBorder hrr l t w h bg bw router "transparent" tc
          false false =
        CanvasOp.save :: (drawRoundRect hrr (l + bw/2) (t + bw/2) (w - bw) (h - bw)
            (changeBorderRadius router (-(bw/2))) ++
          (drawRoundRect hrr (l + bw) (t + bw) (w - bw*2) (h - bw*2)
            (changeBorderRadius router (-bw)) ++
          [CanvasOp.setFillStyle bg, CanvasOp.fill, CanvasOp.restore])) := by
      unfold drawRoundRectWithBorder
      rw [if_neg hne]
      simp only [if_neg hbg, if_pos rfl]
      simp [hbg]
    refine ⟨htr, ?_⟩
    rw [htr]
    have h1 := countFillOps_drawRoundRect hrr (l + bw/2) (t + bw/2) (w - bw) (h - bw)
      (changeBorderRadius router (-(bw/2)))
    have h2 := countFillOps_drawRoundRect hrr (l + bw) (t + bw) (w - bw*2) (h - bw*2)
      (changeBorderRadius router (-bw))
    simp only [countFillOps] at h1 h2 ⊢
    simp [List.countP_cons, List.countP_append, isFillOp, h1, h2]

/-- Witness for C3 (amended): zero border width with distinct colors — the
trace is the single outer background fill, with no stroke and no
`closePath`. -/
theorem claim_C3_singleFill_amended_witness :
    CanvasOp.closePath ∉
      drawRoundRectWithBorder true 0 0 20 10 "red" 0 ⟨0, 0, 0, 0⟩
        "blue" "tc" false false ∧
    ((0:ℚ) = 0 ∨ "blue" = "red" →
      drawRoundRectWithBorder true 0 0 20 10 "red" 0 ⟨0, 0, 0, 0⟩
          "blue" "tc" false false =
        CanvasOp.save :: (drawRoundRect true 0 0 20 10 ⟨0, 0, 0, 0⟩ ++
          [CanvasOp.setFillStyle "red", CanvasOp.fill, CanvasOp.restore]) ∧
      countFillOps (drawRoundRectWithBorder true 0 0 20 10 "red" 0 ⟨0, 0, 0, 0⟩
        "blue" "tc" false false) = 1 ∧
      CanvasOp.stroke ∉
        drawRoundRectWithBorder true 0 0 20 10 "red" 0 ⟨0, 0, 0, 0⟩
          "blue" "tc" false false) ∧
    ("blue" = "transparent" → "red" ≠ "transparent" → (0:ℚ) ≠ 0 →
      false = false → false = false →
      drawRoundRectWithBorder true 0 0 20 10 "red" 0 ⟨0, 0, 0, 0⟩
          "blue" "tc" false false =
        CanvasOp.save :: (drawRoundRect true (0 + 0/2) (0 + 0/2) (20 - 0) (10 - 0)
            (changeBorderRadius ⟨0, 0, 0, 0⟩ (-(0/2))) ++
          (drawRoundRect true (0 + 0) (0 + 0) (20 - 0*2) (10 - 0*2)
            (changeBorderRadius ⟨0, 0, 0, 0⟩ (-0)) ++
          [CanvasOp.setFillStyle "red", CanvasOp.fill, CanvasOp.restore])) ∧
      countFillOps (drawRoundRectWithBorder true 0 0 20 10 "red" 0 ⟨0, 0, 0, 0⟩
        "blue" "tc" false false) = 1) :=
  claim_C3_singleFill_amended true 0 0 20 10 0 "red" ⟨0, 0, 0, 0⟩ "blue" "tc"
    false false (Or.inl rfl)

/-- Running an appended trace runs the two parts in sequence. -/
theorem runCanvas_append (l1 l2 : List CanvasOp) (s : CanvasState)
    (k : List CanvasState) :
    runCanvas (l1 ++ l2) s k =
      runCanvas l2 (runCanvas l1 s k).1 (runCanvas l1 s k).2 := by
  induction l1 generalizing s k with
  | nil => rfl
  | cons op rest ih =>
      cases op <;>
        first
          | (cases k <;> simp [runCanvas, ih])
          | simp [runCanvas, ih]

/-- A trace without stack operations leaves the save/restore stack
untouched. -/
theorem runCanvas_stackFree (l : List CanvasOp)
    (hl : ∀ op ∈ l, isStackOp op = false) (s : CanvasState)
    (k : List CanvasState) : (runCanvas l s k).2 = k := by
  induction l generalizing s with
  | nil => rfl
  | cons op rest ih =>
      have hop := hl op (List.mem_cons_self _ _)
      have hrest : ∀ o ∈ rest, isStackOp o = false :=
        fun o ho => hl o (List.mem_cons_of_mem _ ho)
      cases op <;> simp_all [runCanvas, isStackOp]

/-- A `save`, a stack-operation-free body and a final `restore` leave the
full surface state (style and stack) exactly as it was. -/
theorem runCanvas_bracket (body : List CanvasOp)
    (hl : ∀ op ∈ body, isStackOp op = false) (s : CanvasState)
    (k : List CanvasState) :
    runCanvas (CanvasOp.save :: (body ++ [CanvasOp.restore])) s k = (s, k) := by
  have h1 : runCanvas (CanvasOp.save :: (body ++ [CanvasOp.restore])) s k =
      runCanvas (body ++ [CanvasOp.restore]) s (s :: k) := rfl
  rw [h1, runCanvas_append]
  rw [runCanvas_stackFree body hl s (s :: k)]
  rfl

/-- A rounded-rectangle path contains no `save`. -/
theorem save_not_mem_drawRoundRect (hrr : Bool) (x y w h : ℚ) (r : Radii) :
    CanvasOp.save ∉ drawRoundRect hrr x y w h r := by
  cases hrr <;> simp only [drawRoundRect] <;> split_ifs <;> simp

/-- A rounded-rectangle path contains no `restore`. -/
theorem restore_not_mem_drawRoundRect (hrr : Bool) (x y w h : ℚ) (r : Radii) :
    CanvasOp.restore ∉ drawRoundRect hrr x y w h r := by
  cases hrr <;> simp only [drawRoundRect] <;> split_ifs <;> simp

/-- The close-button glyph contains no stack operations. -/
theorem stackOps_not_mem_drawCloseButton (x y s : ℚ) (bg tc : String) :
    CanvasOp.save ∉ drawCloseButton x y s bg tc ∧
    CanvasOp.restore ∉ drawCloseButton x y s bg tc := by
  constructor <;> simp [drawCloseButton]

/-- The drag-handle glyph contains no stack operations. -/
theorem stackOps_not_mem_drawDragHandle (x y s : ℚ) (bg tc : String) :
    CanvasOp.save ∉ drawDragHandle x y s bg tc ∧
    CanvasOp.restore ∉ drawDragHandle x y s bg tc := by
  constructor <;> simp [drawDragHandle]

/-- C9: each routine that mutates shared surface style state — `clearRect`
and `clearRectWithGradient` (composite mode and fill style) and
`drawRoundRectWithBorder` (fill style, stroke style, line width) —
brackets its mutations in save/restore on every path, so running its trace
returns the surface's style state and stack to exactly their prior
values. -/
theorem claim_C9_saveRestore (x y w h : ℚ) (cc tcol bcol : String)
    (hrr : Bool) (l t ww hh bw : ℚ) (bg : String) (router : Radii)
    (bc tc : String) (dr cb : Bool) (st : CanvasState)
    (stk : List CanvasState) :
    runCanvas (clearRect x y w h cc) st stk = (st, stk) ∧
    runCanvas (clearRectWithGradient x y w h tcol bcol) st stk = (st, stk) ∧
    runCanvas (drawRoundRectWithBorder hrr l t ww hh bg bw router bc tc dr cb)
      st stk = (st, stk) := by
  refine ⟨rfl, rfl, ?_⟩
  unfold drawRoundRectWithBorder
  apply runCanvas_bracket
  intro op hop
  cases op <;> simp only [isStackOp]
  all_goals
    exfalso
    revert hop
    split_ifs <;>
      simp [save_not_mem_drawRoundRect, restore_not_mem_drawRoundRect,
        (stackOps_not_mem_drawCloseButton x y 0 bg tc).1,
        drawCloseButton, drawDragHandle]

/-- A rounded-rectangle path sets no fill style. -/
theorem setFillStyle_not_mem_drawRoundRect (cN : String) (hrr : Bool)
    (x y w h : ℚ) (r : Radii) :
    CanvasOp.setFillStyle cN ∉ drawRoundRect hrr x y w h r := by
  cases hrr <;> simp only [drawRoundRect] <;> split_ifs <;> simp

/-- `drawRoundRectWithBorder` only ever sets the fill style to its
background color or its text color, so any other color is never set. -/
theorem setFillStyle_not_mem_drawRoundRectWithBorder (cN β τ : String)
    (h1 : cN ≠ β) (h2 : cN ≠ τ) (hrr : Bool) (l t w h bw : ℚ) (r : Radii)
    (bc : String) (dr cb : Bool) :
    CanvasOp.setFillStyle cN ∉
      drawRoundRectWithBorder hrr l t w h β bw r bc τ dr cb := by
  intro hop
  revert hop
  unfold drawRoundRectWithBorder
  split_ifs <;>
    simp [setFillStyle_not_mem_drawRoundRect, drawCloseButton, drawDragHandle,
      h1, h2]

/-- When the separator-draw flag `borderVisible` is off and the pane
background color differs from the label background, text and icon colors
and from "transparent", no operation of the `draw` trace sets the pane
background fill style — in particular no separator rectangle is filled. -/
theorem paneFill_not_mem_draw (hrr : Bool)
    (scope : BitmapCoordinatesRenderingScope) (d : PriceAxisViewRendererData)
    (c : PriceAxisViewRendererCommonData) (o : PriceAxisViewRendererOptions)
    (twc : TextWidthCache) (a dr cb : Bool) (ic : Option String)
    (hb : d.borderVisible = false)
    (h1 : o.paneBackgroundColor ≠ c.background)
    (h2 : o.paneBackgroundColor ≠ "transparent")
    (h3 : o.paneBackgroundColor ≠ d.color)
    (h4 : ∀ s, ic = some s → o.paneBackgroundColor ≠ s) :
    CanvasOp.setFillStyle o.paneBackgroundColor ∉
      draw hrr scope d c o twc a dr cb ic := by
  intro hop
  unfold draw at hop
  have halign : (calculateGeometry scope d c o twc a cb ic).alignRight = a := rfl
  by_cases hgg : (!d.visible || decide (d.text.length = 0)) = true
  · rw [if_pos hgg] at hop
    simp at hop
  · rw [if_neg hgg] at hop
    dsimp only at hop
    rw [halign, hb] at hop
    rcases ic with _ | s
    · cases a <;>
        simp [setFillStyle_not_mem_drawRoundRectWithBorder _ _ _ h1 h3,
          setFillStyle_not_mem_drawRoundRectWithBorder _ _ _ h2 h3,
          h3, jsTruthy] at hop <;>
        split_ifs at hop <;> simp_all
    · have h5 : o.paneBackgroundColor ≠ s := h4 s rfl
      cases a <;>
        simp [setFillStyle_not_mem_drawRoundRectWithBorder _ _ _ h1 h3,
          setFillStyle_not_mem_drawRoundRectWithBorder _ _ _ h2 h3,
          h3, h5, jsTruthy] at hop <;>
        split_ifs at hop <;> simp_all

/-- C4 counterexample: a visible label whose content has
`separatorVisible = true` but `borderVisible = false` issues a non-empty
trace containing no fill with the pane background color — the separator
rectangle is not filled even though `separatorVisible` is set, refuting
the claimed "if and only if separatorVisible". -/
theorem claim_C4_separator_cx :
    dEx.separatorVisible = true ∧ dEx.borderVisible = false ∧
    CanvasOp.setFillStyle oEx.paneBackgroundColor ∉
      draw true scopeEx dEx cEx oEx twcEx true false false none ∧
    draw true scopeEx dEx cEx oEx twcEx true false false none ≠ [] := by
  refine ⟨rfl, rfl,
    paneFill_not_mem_draw true scopeEx dEx cEx oEx twcEx true false false none
      rfl (by decide) (by decide) (by decide) (fun s hs => by cases hs), ?_⟩
  unfold draw
  rw [if_neg (by decide)]
  simp

/-- C4 (amended): for a visible, non-empty label whose pane background
color differs from the label background, text and icon colors and from
"transparent", the trace contains a fill with the pane background color
precisely when `borderVisible` is set (not `separatorVisible`); when it
is, the separator is the two-operation sequence filling a rectangle of the
bitmap border thickness (positive only when `separatorVisible`), spanning
the label's full bitmap height, at the surface's right edge for right
alignment and at x = 0 for left alignment, in the pane background color. -/
theorem claim_C4_separator_amended (hrr : Bool)
    (scope : BitmapCoordinatesRenderingScope) (d : PriceAxisViewRendererData)
    (c : PriceAxisViewRendererCommonData) (o : PriceAxisViewRendererOptions)
    (twc : TextWidthCache) (a dr cb : Bool) (ic : Option String)
    (hv : d.visible = true) (htxt : d.text ≠ "")
    (h1 : o.paneBackgroundColor ≠ c.background)
    (h2 : o.paneBackgroundColor ≠ "transparent")
    (h3 : o.paneBackgroundColor ≠ d.color)
    (h4 : ∀ s, ic = some s → o.paneBackgroundColor ≠ s) :
    (CanvasOp.setFillStyle o.paneBackgroundColor ∈
        draw hrr scope d c o twc a dr cb ic ↔ d.borderVisible = true) ∧
    (d.borderVisible = true →
      List.IsInfix
        [CanvasOp.setFillStyle o.paneBackgroundColor,
         CanvasOp.fillRect
           (if (calculateGeometry scope d c o twc a cb ic).alignRight
             then ((calculateGeometry scope d c o twc a cb ic).bitmap.right : ℚ) -
               ((calculateGeometry scope d c o twc a cb ic).bitmap.horzBorder : ℚ)
             else 0)
           ((calculateGeometry scope d c o twc a cb ic).bitmap.yTop : ℚ)
           ((calculateGeometry scope d c o twc a cb ic).bitmap.horzBorder : ℚ)
           (((calculateGeometry scope d c o twc a cb ic).bitmap.yBottom : ℚ) -
             ((calculateGeometry scope d c o twc a cb ic).bitmap.yTop : ℚ))]
        (draw hrr scope d c o twc a dr cb ic)) := by
  have hlen : d.text.length ≠ 0 := by
    intro h0
    apply htxt
    cases htext : d.text with
    | mk data =>
        rw [htext] at h0
        cases data
        · rfl
        · simp [String.length] at h0
  have hguard : ¬(!d.visible || decide (d.text.length = 0)) = true := by
    rw [hv]
    simp [hlen]
  have hinf : d.borderVisible = true →
      List.IsInfix
        [CanvasOp.setFillStyle o.paneBackgroundColor,
         CanvasOp.fillRect
           (if (calculateGeometry scope d c o twc a cb ic).alignRight
             then ((calculateGeometry scope d c o twc a cb ic).bitmap.right : ℚ) -
               ((calculateGeometry scope d c o twc a cb ic).bitmap.horzBorder : ℚ)
             else 0)
           ((calculateGeometry scope d c o twc a cb ic).bitmap.yTop : ℚ)
           ((calculateGeometry scope d c o twc a cb ic).bitmap.horzBorder : ℚ)
           (((calculateGeometry scope d c o twc a cb ic).bitmap.yBottom : ℚ) -
             ((calculateGeometry scope d c o twc a cb ic).bitmap.yTop : ℚ))]
        (draw hrr scope d c o twc a dr cb ic) := by
    intro hbv
    unfold draw
    rw [if_neg hguard]
    dsimp only
    rw [hbv]
    simp only [if_pos rfl, if_true]
    exact ⟨_, _, rfl⟩
  refine ⟨⟨?_, ?_⟩, hinf⟩
  · intro hmem
    by_contra hbv
    have hbf : d.borderVisible = false := by
      revert hbv
      cases d.borderVisible <;> simp
    exact paneFill_not_mem_draw hrr scope d c o twc a dr cb ic hbf h1 h2 h3 h4 hmem
  · intro hbv
    exact (hinf hbv).subset (by simp)

/-- Witness for C4 (amended): with `borderVisible = true` the pane-color
separator fill occurs in the concrete trace and forms the stated
two-operation sequence. -/
theorem claim_C4_separator_amended_witness :
    (CanvasOp.setFillStyle oEx.paneBackgroundColor ∈
        draw true scopeEx dEx2 cEx oEx twcEx true false false none ↔
      dEx2.borderVisible = true) ∧
    (dEx2.borderVisible = true →
      List.IsInfix
        [CanvasOp.setFillStyle oEx.paneBackgroundColor,
         CanvasOp.fillRect
           (if (calculateGeometry scopeEx dEx2 cEx oEx twcEx true false none).alignRight
             then ((calculateGeometry scopeEx dEx2 cEx oEx twcEx true false none).bitmap.right : ℚ) -
               ((calculateGeometry scopeEx dEx2 cEx oEx twcEx true false none).bitmap.horzBorder : ℚ)
             else 0)
           ((calculateGeometry scopeEx dEx2 cEx oEx twcEx true false none).bitmap.yTop : ℚ)
           ((calculateGeometry scopeEx dEx2 cEx oEx twcEx true false none).bitmap.horzBorder : ℚ)
           (((calculateGeometry scopeEx dEx2 cEx oEx twcEx true false none).bitmap.yBottom : ℚ) -
             ((calculateGeometry scopeEx dEx2 cEx oEx twcEx true false none).bitmap.yTop : ℚ))]
        (draw true scopeEx dEx2 cEx oEx twcEx true false false none)) :=
  claim_C4_separator_amended true scopeEx dEx2 cEx oEx twcEx true false false none
    rfl (by decide) (by decide) (by decide) (by decide)
    (fun s hs => nomatch hs)
